import Mathlib

/-!
Shallow embedding of `boringtun-cli/src/main.rs` (the startup
orchestration and handshake protocol of the boringtun CLI).

The worker/supervisor control flow of `main` is embedded as a function
from the parsed arguments and an environment of external outcomes
(device-engine factory, privilege-drop primitive, channel sends,
daemonization) to a trace of observable events plus a terminal outcome.
Pure helpers (`Args::tun_name`, the exit-action closure, the clap flag
metadata, the socketpair configuration) are embedded directly.
-/

/-- Log verbosity levels of the `tracing` crate (`tracing::Level`). -/
inductive Level where
  | TRACE
  | DEBUG
  | INFO
  | WARN
  | ERROR
deriving DecidableEq

/-- The parsed command-line arguments (`struct Args` in `main.rs`).
Field names and order follow the source. -/
structure Args where
  interface_name : String
  foreground : Bool
  threads : Nat
  verbosity : Level
  uapi_fd : Int
  tun_fd : Int
  log : String
  disable_drop_privileges : Bool
  disable_connected_udp : Bool
  disable_multi_queue : Bool
deriving DecidableEq

/-- `Args::tun_name`: if `tun_fd >= 0` the decimal rendering of the file
descriptor, otherwise the configured interface name. -/
def Args.tun_name (a : Args) : String :=
  if a.tun_fd ≥ 0 then toString a.tun_fd else a.interface_name

/-- The clap default values of `Args` (only the positional
`interface_name` has no default). -/
def defaultArgs (interface_name : String) : Args :=
  { interface_name := interface_name
    foreground := false
    threads := 4
    verbosity := Level.ERROR
    uapi_fd := -1
    tun_fd := -1
    log := "/tmp/boringtun.out"
    disable_drop_privileges := false
    disable_connected_udp := false
    disable_multi_queue := false }

/-- `boringtun::device::DeviceConfig` as constructed in `main`
(Linux-conditional fields included, as on the fullest platform). -/
structure DeviceConfig where
  n_threads : Nat
  uapi_fd : Int
  use_connected_socket : Bool
  use_multi_queue : Bool
deriving DecidableEq

/-- The `DeviceConfig` literal built in `main` from the parsed args. -/
def mkDeviceConfig (a : Args) : DeviceConfig :=
  { n_threads := a.threads
    uapi_fd := a.uapi_fd
    use_connected_socket := !a.disable_connected_udp
    use_multi_queue := !a.disable_multi_queue }

/-- Metadata of one clap flag: its long name and the optional
environment-variable fallback declared in the `#[clap(...)]` attribute. -/
structure FlagSpec where
  name : String
  envVar : Option String
deriving DecidableEq

/-- The flags of `struct Args` (the positional `interface_name` is not a
flag), with their `env = "..."` attributes exactly as in the source. -/
def cliFlags : List FlagSpec :=
  [ { name := "foreground", envVar := none }
  , { name := "threads", envVar := some "WG_THREADS" }
  , { name := "verbosity", envVar := some "WG_LOG_LEVEL" }
  , { name := "uapi-fd", envVar := some "WG_UAPI_FD" }
  , { name := "tun-fd", envVar := some "WG_TUN_FD" }
  , { name := "log", envVar := some "WG_LOG_FILE" }
  , { name := "disable-drop-privileges", envVar := some "WG_SUDO" }
  , { name := "disable-connected-udp", envVar := none }
  , { name := "disable-multi-queue", envVar := none } ]

/-- Blocking/timeout configuration of one `UnixDatagram` endpoint. A
fresh endpoint from `UnixDatagram::pair()` is blocking with no read
timeout; `set_nonblocking(true)` flips the first field and
`set_read_timeout` would set the second. -/
structure UnixDatagramState where
  nonblocking : Bool
  readTimeout : Option Nat
deriving DecidableEq

/-- State of a freshly created `UnixDatagram::pair()` endpoint. -/
def freshPairEndpoint : UnixDatagramState :=
  { nonblocking := false, readTimeout := none }

/-- `sock1` (the worker/reporter end) after
`let _ = sock1.set_nonblocking(true)`. No other configuration call is
made on it in `main`. -/
def sock1Config : UnixDatagramState :=
  { freshPairEndpoint with nonblocking := true }

/-- `sock2` (the listener end moved into the daemonize exit-action
closure). `main` performs no configuration call on it at all. -/
def sock2Config : UnixDatagramState :=
  freshPairEndpoint

/-- The result of `sock2.recv(&mut b)` as observed by the exit-action
closure: `ok b0` is `is_ok()` with `b[0] = b0` afterwards, `err` is a
receive error. -/
inductive RecvResult where
  | ok (b0 : Nat)
  | err
deriving DecidableEq

/-- What the exit-action closure does before the parent process
terminates: what it printed to stdout and stderr, and the process exit
code (`exit(1)` in the else branch; daemonize exits 0 after the closure
returns normally). -/
structure ExitReport where
  stdoutMsg : Option String
  stderrMsg : Option String
  code : Nat
deriving DecidableEq

/-- The `exit_action` closure registered in background mode:
`if sock2.recv(&mut b).is_ok() && b[0] == 1` print the success line,
else print the failure line to stderr and `exit(1)`. -/
def exit_action (r : RecvResult) : ExitReport :=
  match r with
  | RecvResult.ok b0 =>
      if b0 = 1 then
        { stdoutMsg := some "BoringTun started successfully"
          stderrMsg := none
          code := 0 }
      else
        { stdoutMsg := none
          stderrMsg := some "BoringTun failed to start"
          code := 1 }
  | RecvResult.err =>
      { stdoutMsg := none
        stderrMsg := some "BoringTun failed to start"
        code := 1 }

/-- Observable events of one execution of `main`, in program order. -/
inductive Event where
  | pairCreated
  | setNonblocking
  | mode (foreground : Bool)
  | createLogFile (path : String)
  | registerExitAction
  | daemonizeStart
  | logInfo (msg : String)
  | logError (msg : Option String)
  | createDevice (name : String) (cfg : DeviceConfig)
  | dropPrivileges
  | send (b : Nat)
  | closeReporter
  | wait
deriving DecidableEq

/-- Terminal outcome of the process being modelled. -/
inductive Outcome where
  | panicked
  | exited (code : Nat)
  | waiting
deriving DecidableEq

/-- Outcomes of the external collaborators called by `main`: log-file
creation, `Daemonize::start`, `DeviceHandle::new`, `drop_privileges`,
and `sock1.send` (true = the call succeeds). -/
structure MainEnv where
  logFileOk : Bool
  daemonizeOk : Bool
  deviceOk : Bool
  dropOk : Bool
  sendOk : Bool
deriving DecidableEq

/-- The worker phase of `main` (everything from `DeviceHandle::new` to
`device_handle.wait()`), as a trace of events plus an outcome. Each
`send` event records a byte actually written; a failed send panics via
`.unwrap()` before anything else happens. -/
def runWorker (a : Args) (env : MainEnv) : List Event × Outcome :=
  let tr0 := [Event.createDevice (Args.tun_name a) (mkDeviceConfig a)]
  if !env.deviceOk then
    let tr1 := tr0 ++ [Event.logError (some "Failed to initialize tunnel")]
    if env.sendOk then (tr1 ++ [Event.send 0], Outcome.exited 1)
    else (tr1, Outcome.panicked)
  else if !a.disable_drop_privileges && !env.dropOk then
    let tr1 := tr0 ++ [Event.dropPrivileges,
                       Event.logError (some "Failed to drop privileges")]
    if env.sendOk then (tr1 ++ [Event.send 0], Outcome.exited 1)
    else (tr1, Outcome.panicked)
  else
    let tr1 := tr0 ++ (if !a.disable_drop_privileges then [Event.dropPrivileges] else [])
    if env.sendOk then
      (tr1 ++ [Event.send 1, Event.closeReporter,
               Event.logInfo "BoringTun started successfully", Event.wait],
       Outcome.waiting)
    else (tr1, Outcome.panicked)

/-- All of `main`: socketpair creation, mode decision, background
daemonization (log file, exit-action registration, `Daemonize::start`),
then the worker phase. In background mode the trace continues in the
forked child; the parent's behaviour is `exit_action`. -/
def runMain (a : Args) (env : MainEnv) : List Event × Outcome :=
  let pre := [Event.pairCreated, Event.setNonblocking, Event.mode a.foreground]
  if !a.foreground then
    if !env.logFileOk then (pre, Outcome.panicked)
    else
      let pre2 := pre ++ [Event.createLogFile a.log, Event.registerExitAction,
                          Event.daemonizeStart]
      if !env.daemonizeOk then
        (pre2 ++ [Event.logError none], Outcome.exited 1)
      else
        let w := runWorker a env
        (pre2 ++ [Event.logInfo "BoringTun started successfully"] ++ w.1, w.2)
  else
    let w := runWorker a env
    (pre ++ w.1, w.2)

/-- The bytes written to the handshake channel, in trace order. -/
def sends : List Event → List Nat
  | [] => []
  | Event.send b :: rest => b :: sends rest
  | _ :: rest => sends rest

/-- Is this event a fallible startup step (device creation or privilege
drop)? -/
def isStep : Event → Bool
  | Event.createDevice _ _ => true
  | Event.dropPrivileges => true
  | _ => false

def isSend : Event → Bool
  | Event.send _ => true
  | _ => false

def isWait : Event → Bool
  | Event.wait => true
  | _ => false

/-- Scans a trace tracking whether a handshake send has been seen:
no fallible step may occur after a send, and no `wait` before one. -/
def signalOrderedFrom : List Event → Bool → Bool
  | [], _ => true
  | e :: rest, seen =>
    if isSend e then signalOrderedFrom rest true
    else if isStep e then !seen && signalOrderedFrom rest seen
    else if isWait e then seen && signalOrderedFrom rest seen
    else signalOrderedFrom rest seen

/-- Every fallible startup step precedes every handshake send, and every
`wait` follows one. -/
def signalOrdered (tr : List Event) : Bool :=
  signalOrderedFrom tr false

/-- A sample argument set: default flags, a pre-opened tun descriptor. -/
def argsFd : Args :=
  { defaultArgs "wg0" with tun_fd := 5 }

/-- The environment in which every external call succeeds. -/
def envAllOk : MainEnv :=
  { logFileOk := true, daemonizeOk := true, deviceOk := true,
    dropOk := true, sendOk := true }

/-- Decimal rendering of a non-negative `Int` is the decimal rendering
of the corresponding `Nat`. -/
theorem intToString_coe (m : Nat) : toString (m : Int) = Nat.repr m := rfl

/-- C5: the supervisor's exit callback prints a success indication and
exits 0 exactly when it receives the byte 1; for any other observation
(other byte, receive error) it prints a failure indication on stderr and
exits 1. -/
theorem C5_exit_action_iff (r : RecvResult) :
    (exit_action r = { stdoutMsg := some "BoringTun started successfully",
                       stderrMsg := none, code := 0 } ↔ r = RecvResult.ok 1) ∧
    (r ≠ RecvResult.ok 1 →
      exit_action r = { stdoutMsg := none,
                        stderrMsg := some "BoringTun failed to start", code := 1 }) := by
  constructor
  · constructor
    · intro h
      cases r with
      | ok b0 =>
          by_cases hb : b0 = 1
          · simp [hb]
          · simp [exit_action, hb] at h
      | err => simp [exit_action] at h
    · rintro rfl
      simp [exit_action]
  · intro hne
    cases r with
    | ok b0 =>
        have hb : b0 ≠ 1 := by
          intro h
          exact hne (by simp [h])
        simp [exit_action, hb]
    | err => simp [exit_action]

/-- C5 witness: the exit callback on a receive error reports failure. -/
theorem C5_witness :
    exit_action RecvResult.err = { stdoutMsg := none,
                                   stderrMsg := some "BoringTun failed to start",
                                   code := 1 } :=
  (C5_exit_action_iff RecvResult.err).2 (by decide)

/-- C6 counterexample: the claim that the listener receive has a bounded
wait (a configured read timeout) is false — `main` never sets a read
timeout on `sock2`, so `readTimeout` is `none`. -/
theorem C6_counterexample :
    ¬ (sock2Config.nonblocking = false ∧ sock2Config.readTimeout.isSome = true) := by
  decide

/-- C6 (amended): the exit-callback receive on the listener end is a
blocking receive with no timeout configured, so a timeout can never
occur; every observation other than the Success byte resolves to the
failure outcome (non-zero exit). -/
theorem C6_blocking_recv :
    sock2Config.nonblocking = false ∧ sock2Config.readTimeout = none ∧
    (∀ r, r ≠ RecvResult.ok 1 → (exit_action r).code = 1) := by
  refine ⟨rfl, rfl, ?_⟩
  intro r hr
  cases r with
  | ok b0 =>
      have hb : b0 ≠ 1 := by
        intro h
        exact hr (by simp [h])
      simp [exit_action, hb]
  | err => simp [exit_action]

/-- C6 witness: a receive error yields exit code 1. -/
theorem C6_witness : (exit_action RecvResult.err).code = 1 :=
  C6_blocking_recv.2.2 RecvResult.err (by decide)

/-- C7: when the pre-opened tun descriptor is non-negative, the name
passed to the device-engine factory is its decimal string and the
interface name is ignored; when negative, the interface name is used;
and the worker always hands `Args::tun_name` to the factory. -/
theorem C7_tun_name (a : Args) :
    (0 ≤ a.tun_fd →
       Args.tun_name a = Nat.repr a.tun_fd.toNat ∧
       ∀ s, Args.tun_name { a with interface_name := s } = Args.tun_name a) ∧
    (a.tun_fd < 0 → Args.tun_name a = a.interface_name) ∧
    (∀ env, Event.createDevice (Args.tun_name a) (mkDeviceConfig a) ∈ (runWorker a env).1) := by
  refine ⟨?_, ?_, ?_⟩
  · intro h
    obtain ⟨m, hm⟩ := Int.eq_ofNat_of_zero_le h
    constructor
    · simp [Args.tun_name, hm, intToString_coe]
    · intro s
      simp [Args.tun_name, hm, intToString_coe]
  · intro h
    have h' : ¬ a.tun_fd ≥ 0 := by omega
    simp [Args.tun_name, h']
  · intro env
    rcases env with ⟨lf, dm, dev, dr, snd⟩
    cases dev <;> cases dr <;> cases snd <;>
      cases hd : a.disable_drop_privileges <;>
      simp [runWorker, hd]

/-- C7 witness: with `tun_fd = 5` the factory name is `"5"` whatever the
interface name is; with `tun_fd = -1` it is the interface name. -/
theorem C7_witness :
    (Args.tun_name argsFd = Nat.repr 5 ∧
     Args.tun_name { argsFd with interface_name := "other" } = Args.tun_name argsFd) ∧
    Args.tun_name (defaultArgs "wg0") = "wg0" := by
  constructor
  · have h := (C7_tun_name argsFd).1 (by decide)
    exact ⟨h.1, h.2 "other"⟩
  · exact (C7_tun_name (defaultArgs "wg0")).2.1 (by decide)

/-- C8 counterexample: not every CLI flag has an environment-variable
fallback — `foreground`, `disable-connected-udp` and
`disable-multi-queue` have none. -/
theorem C8_counterexample :
    ¬ (∀ f ∈ cliFlags, f.envVar.isSome = true) := by
  decide

/-- C8 (amended): the thread-count, verbosity, log-file, control-API
descriptor, tunnel descriptor and privilege-drop opt-out flags have
environment-variable fallbacks (WG_THREADS, WG_LOG_LEVEL, WG_UAPI_FD,
WG_TUN_FD, WG_LOG_FILE, WG_SUDO); the foreground, connected-UDP opt-out
and multi-queue opt-out flags have none. -/
theorem C8_env_fallbacks :
    (cliFlags.filter (fun f => f.envVar.isSome)).map FlagSpec.name =
      ["threads", "verbosity", "uapi-fd", "tun-fd", "log",
       "disable-drop-privileges"] ∧
    (cliFlags.filter (fun f => !f.envVar.isSome)).map FlagSpec.name =
      ["foreground", "disable-connected-udp", "disable-multi-queue"] ∧
    cliFlags.filterMap FlagSpec.envVar =
      ["WG_THREADS", "WG_LOG_LEVEL", "WG_UAPI_FD", "WG_TUN_FD",
       "WG_LOG_FILE", "WG_SUDO"] := by
  refine ⟨rfl, rfl, rfl⟩

/-- C1: in every worker execution (channel send succeeding, as the spec
assumes for the local pre-connected pair), exactly one handshake byte is
written, after every fallible startup step that ran and before any
`wait`. -/
theorem C1_exactly_one_signal (a : Args) (env : MainEnv) (hs : env.sendOk = true) :
    (sends (runWorker a env).1).length = 1 ∧
    signalOrdered (runWorker a env).1 = true := by
  rcases env with ⟨lf, dm, dev, dr, snd⟩
  obtain rfl : snd = true := hs
  cases dev <;> cases dr <;> cases hd : a.disable_drop_privileges <;>
    simp [runWorker, hd, sends, signalOrdered, signalOrderedFrom, isSend, isStep, isWait]

/-- C1 witness: with every external call succeeding and default flags,
exactly one byte is sent, in signal order. -/
theorem C1_witness :
    (sends (runWorker argsFd envAllOk).1).length = 1 ∧
    signalOrdered (runWorker argsFd envAllOk).1 = true :=
  C1_exactly_one_signal argsFd envAllOk rfl

/-- C2: when device creation and the (optional) privilege drop succeed,
the worker writes byte 1 exactly once, closes the reporter end, logs the
startup-success message, then calls `wait`; the listener process on
receiving that byte reports exit code 0. -/
theorem C2_success_path (a : Args) (env : MainEnv)
    (hd : env.deviceOk = true) (hp : env.dropOk = true) (hs : env.sendOk = true) :
    runWorker a env =
      (Event.createDevice (Args.tun_name a) (mkDeviceConfig a) ::
         ((if a.disable_drop_privileges then [] else [Event.dropPrivileges]) ++
          [Event.send 1, Event.closeReporter,
           Event.logInfo "BoringTun started successfully", Event.wait]),
       Outcome.waiting) ∧
    sends (runWorker a env).1 = [1] ∧
    exit_action (RecvResult.ok 1) =
      { stdoutMsg := some "BoringTun started successfully",
        stderrMsg := none, code := 0 } := by
  rcases env with ⟨lf, dm, dev, dr, snd⟩
  obtain rfl : dev = true := hd
  obtain rfl : dr = true := hp
  obtain rfl : snd = true := hs
  cases hddp : a.disable_drop_privileges <;>
    simp [runWorker, hddp, sends, exit_action]

/-- C2 witness: the success path at a concrete argument set. -/
theorem C2_witness :
    runWorker argsFd envAllOk =
      ([Event.createDevice "5" (mkDeviceConfig argsFd), Event.dropPrivileges,
        Event.send 1, Event.closeReporter,
        Event.logInfo "BoringTun started successfully", Event.wait],
       Outcome.waiting) := by
  have h := (C2_success_path argsFd envAllOk rfl rfl rfl).1
  simpa [argsFd, defaultArgs, Args.tun_name] using h

/-- C3: when device creation fails, the worker writes exactly one byte 0,
logs the tunnel-initialization error, exits with code 1, and never
reaches the privilege-drop step. -/
theorem C3_device_failure (a : Args) (env : MainEnv)
    (hd : env.deviceOk = false) (hs : env.sendOk = true) :
    sends (runWorker a env).1 = [0] ∧
    Event.logError (some "Failed to initialize tunnel") ∈ (runWorker a env).1 ∧
    (runWorker a env).2 = Outcome.exited 1 ∧
    Event.dropPrivileges ∉ (runWorker a env).1 := by
  rcases env with ⟨lf, dm, dev, dr, snd⟩
  obtain rfl : dev = false := hd
  obtain rfl : snd = true := hs
  simp [runWorker, sends]

/-- C3 witness: device-creation failure at a concrete argument set. -/
theorem C3_witness :
    sends (runWorker argsFd { envAllOk with deviceOk := false }).1 = [0] ∧
    (runWorker argsFd { envAllOk with deviceOk := false }).2 = Outcome.exited 1 := by
  have h := C3_device_failure argsFd { envAllOk with deviceOk := false } rfl rfl
  exact ⟨h.1, h.2.2.1⟩

/-- C4: privilege drop runs only when not opted out (the clap default
keeps it enabled); when it runs it sits strictly between device creation
and the success signal; on its failure the worker sends byte 0, logs the
cause, exits 1, and never sends byte 1. -/
theorem C4_privilege_drop (a : Args) (env : MainEnv) (hs : env.sendOk = true) :
    (defaultArgs a.interface_name).disable_drop_privileges = false ∧
    (a.disable_drop_privileges = true →
       Event.dropPrivileges ∉ (runWorker a env).1) ∧
    (a.disable_drop_privileges = false → env.deviceOk = true → env.dropOk = true →
       (runWorker a env).1 =
         [Event.createDevice (Args.tun_name a) (mkDeviceConfig a),
          Event.dropPrivileges, Event.send 1, Event.closeReporter,
          Event.logInfo "BoringTun started successfully", Event.wait]) ∧
    (a.disable_drop_privileges = false → env.deviceOk = true → env.dropOk = false →
       sends (runWorker a env).1 = [0] ∧
       Event.logError (some "Failed to drop privileges") ∈ (runWorker a env).1 ∧
       (runWorker a env).2 = Outcome.exited 1 ∧
       Event.send 1 ∉ (runWorker a env).1) := by
  rcases env with ⟨lf, dm, dev, dr, snd⟩
  obtain rfl : snd = true := hs
  refine ⟨rfl, ?_, ?_, ?_⟩
  · intro hddp
    cases dev <;> cases dr <;> simp [runWorker, hddp, sends]
  · intro hddp hdev hdr
    obtain rfl : dev = true := hdev
    obtain rfl : dr = true := hdr
    simp [runWorker, hddp]
  · intro hddp hdev hdr
    obtain rfl : dev = true := hdev
    obtain rfl : dr = false := hdr
    simp [runWorker, hddp, sends]

/-- C4 witness: failing privilege drop after a successful device, at a
concrete argument set, sends byte 0 and exits 1. -/
theorem C4_witness :
    sends (runWorker argsFd { envAllOk with dropOk := false }).1 = [0] ∧
    (runWorker argsFd { envAllOk with dropOk := false }).2 = Outcome.exited 1 := by
  have h := (C4_privilege_drop argsFd { envAllOk with dropOk := false } rfl).2.2.2
    rfl rfl rfl
  exact ⟨h.1, h.2.2.1⟩

/-- C9: when `Daemonize::start` fails, the supervisor logs the error and
exits 1, and no handshake byte is ever sent in that execution. -/
theorem C9_daemonize_failure (a : Args) (env : MainEnv)
    (hf : a.foreground = false) (hl : env.logFileOk = true)
    (hd : env.daemonizeOk = false) :
    sends (runMain a env).1 = [] ∧
    Event.logError none ∈ (runMain a env).1 ∧
    (runMain a env).2 = Outcome.exited 1 := by
  rcases env with ⟨lf, dm, dev, dr, snd⟩
  obtain rfl : lf = true := hl
  obtain rfl : dm = false := hd
  simp [runMain, hf, sends]

/-- C9 witness: daemonization failure at a concrete argument set. -/
theorem C9_witness :
    sends (runMain (defaultArgs "wg0") { envAllOk with daemonizeOk := false }).1 = [] ∧
    (runMain (defaultArgs "wg0") { envAllOk with daemonizeOk := false }).2 =
      Outcome.exited 1 := by
  have h := C9_daemonize_failure (defaultArgs "wg0")
    { envAllOk with daemonizeOk := false } rfl rfl rfl
  exact ⟨h.1, h.2.2⟩

/-- C10: the socketpair is created (and `sock1` made non-blocking)
before the foreground/background decision in every execution; in
foreground mode no exit callback is registered yet the worker still
writes its handshake byte (1 exactly when device creation and the
enabled privilege drop succeed, else 0); and whenever a handshake send
fails, the worker panics. -/
theorem C10_channel_unconditional (a : Args) (env : MainEnv) :
    (runMain a env).1.take 3 =
      [Event.pairCreated, Event.setNonblocking, Event.mode a.foreground] ∧
    (a.foreground = true → Event.registerExitAction ∉ (runMain a env).1) ∧
    (a.foreground = true → env.sendOk = true →
       sends (runMain a env).1 =
         [if env.deviceOk && (a.disable_drop_privileges || env.dropOk) then 1 else 0]) ∧
    (env.sendOk = false →
       a.foreground = true ∨ (env.logFileOk = true ∧ env.daemonizeOk = true) →
       (runMain a env).2 = Outcome.panicked) := by
  rcases env with ⟨lf, dm, dev, dr, snd⟩
  refine ⟨?_, ?_, ?_, ?_⟩
  · cases hf : a.foreground <;> cases lf <;> cases dm <;>
      simp [runMain, hf]
  · intro hf
    cases dev <;> cases dr <;> cases snd <;>
      cases hd : a.disable_drop_privileges <;>
      simp [runMain, runWorker, hf, hd]
  · intro hf hs
    obtain rfl : snd = true := hs
    cases dev <;> cases dr <;> cases hd : a.disable_drop_privileges <;>
      simp [runMain, runWorker, hf, hd, sends]
  · intro hs hreach
    obtain rfl : snd = false := hs
    rcases hreach with hf | ⟨hlf, hdm⟩
    · cases dev <;> cases dr <;> cases hd : a.disable_drop_privileges <;>
        simp [runMain, runWorker, hf, hd]
    · obtain rfl : lf = true := hlf
      obtain rfl : dm = true := hdm
      cases hf : a.foreground <;> cases dev <;> cases dr <;>
        cases hd : a.disable_drop_privileges <;>
        simp [runMain, runWorker, hf, hd]

/-- C10 witness: in foreground mode with all calls succeeding the byte 1
is sent with no exit callback registered; with a failing send the worker
panics. -/
theorem C10_witness :
    sends (runMain { defaultArgs "wg0" with foreground := true } envAllOk).1 = [1] ∧
    (runMain { defaultArgs "wg0" with foreground := true }
       { envAllOk with sendOk := false }).2 = Outcome.panicked := by
  constructor
  · have h := (C10_channel_unconditional
      { defaultArgs "wg0" with foreground := true } envAllOk).2.2.1 rfl rfl
    simpa using h
  · exact (C10_channel_unconditional
      { defaultArgs "wg0" with foreground := true }
      { envAllOk with sendOk := false }).2.2.2 rfl (Or.inl rfl)
